import Mathlib

/-
Verification of the debounce-and-toggle GPIO driver (src/target/src/gpioctrl.c).

The driver's core is `button_work_handler`: a deferred-work function that
applies a 200 ms debounce filter to edge notifications, samples the
(active-low) button line, and on a pressed observation toggles `led_state`
and writes it to the LED line.  Time is modelled in milliseconds (so
`msecs_to_jiffies` is the identity in this unit); the C timestamps are
`unsigned long`, so timestamp subtraction is modulo 2^64.
-/

namespace GpioCtrl

/-- 2^64: modulus of the C `unsigned long` timestamps. -/
def ULONG_MOD : Nat := 18446744073709551616

/-- Time is modelled in milliseconds, so this conversion is the identity. -/
def msecs_to_jiffies (ms : Nat) : Nat := ms

/-- C `unsigned long` subtraction `a - b`, modulo 2^64. -/
def usub (a b : Nat) : Nat := (a + ULONG_MOD - b) % ULONG_MOD

/-- Mutable state owned by the work handler: the `static unsigned long
last_interrupt_time` (gpioctrl.c line 27) and the module-level
`static bool led_state` (line 13). -/
structure EngineState where
  last_interrupt_time : Nat
  led_state : Bool
  deriving DecidableEq, Repr

/-- gpioctrl.c line 13 and line 27: `led_state = false`,
`last_interrupt_time = 0` before the first notification. -/
def initEngine : EngineState := { last_interrupt_time := 0, led_state := false }

/-- gpioctrl.c lines 25-45, `button_work_handler`.  Inputs: the stored state,
the current time (`jiffies`) and the sampled button level
(`gpio_get_value(BUTTON_GPIO)`).  Output: the new state, and `some v` when
`gpio_set_value(LED_GPIO, v)` is executed, `none` when nothing is written. -/
def button_work_handler (s : EngineState) (interrupt_time : Nat)
    (button_level : Nat) : EngineState × Option Bool :=
  if usub interrupt_time s.last_interrupt_time < msecs_to_jiffies 200 then
    (s, none)
  else
    let s1 : EngineState := { s with last_interrupt_time := interrupt_time }
    if button_level = 0 then
      let led := !s1.led_state
      ({ s1 with led_state := led }, some led)
    else
      (s1, none)

/-- Run the handler over a list of notifications `(time, sampled level)`,
collecting the levels written to the LED line in order. -/
def runHandler : EngineState → List (Nat × Nat) → EngineState × List Bool
  | s, [] => (s, [])
  | s, (t, lvl) :: evs =>
    let r := button_work_handler s t lvl
    let rest := runHandler r.1 evs
    (rest.1, r.2.toList ++ rest.2)

/-- C1: a notification at time `t` with `t - last_interrupt_time < 200` ms
(unsigned subtraction) is rejected: the state (both `led_state` and
`last_interrupt_time`) is unchanged and nothing is written to the LED line;
otherwise `last_interrupt_time` is set to `t`, so the timestamp is updated
exactly on acceptance. -/
theorem debounce_filter_spec (s : EngineState) (t lvl : Nat) :
    (usub t s.last_interrupt_time < msecs_to_jiffies 200 →
      button_work_handler s t lvl = (s, none)) ∧
    (¬ usub t s.last_interrupt_time < msecs_to_jiffies 200 →
      (button_work_handler s t lvl).1.last_interrupt_time = t) := by
  constructor <;> intro h
  · simp [button_work_handler, h]
  · by_cases hl : lvl = 0 <;> simp [button_work_handler, h, hl]

/-- Witness for C1 at concrete inputs: a notification 100 ms after the last
accepted one is dropped without state change; one 300 ms after updates the
timestamp. -/
theorem debounce_filter_spec_witness :
    button_work_handler { last_interrupt_time := 0, led_state := false } 100 0 =
      ({ last_interrupt_time := 0, led_state := false }, none) ∧
    (button_work_handler { last_interrupt_time := 0, led_state := false } 300 1).1.last_interrupt_time
      = 300 :=
  ⟨(debounce_filter_spec { last_interrupt_time := 0, led_state := false } 100 0).1 (by decide),
   (debounce_filter_spec { last_interrupt_time := 0, led_state := false } 300 1).2 (by decide)⟩

/-- C2: an accepted notification samples the button line.  At level 0
(active-low pressed) the LED boolean flips and the new value is written to
the LED line; at a non-zero (released) level nothing is toggled and nothing
is written, yet `last_interrupt_time` has still been updated to `t`. -/
theorem accept_sample_spec (s : EngineState) (t lvl : Nat)
    (h : ¬ usub t s.last_interrupt_time < msecs_to_jiffies 200) :
    (lvl = 0 → button_work_handler s t lvl =
      ({ last_interrupt_time := t, led_state := !s.led_state }, some (!s.led_state))) ∧
    (lvl ≠ 0 → button_work_handler s t lvl =
      ({ last_interrupt_time := t, led_state := s.led_state }, none)) := by
  constructor <;> intro hl <;> simp [button_work_handler, h, hl]

/-- Witness for C2 at concrete inputs: at time 300 from the fresh state a
pressed sample toggles the LED on and writes `true`; a released sample
leaves the LED alone but still consumes the window. -/
theorem accept_sample_spec_witness :
    button_work_handler { last_interrupt_time := 0, led_state := false } 300 0 =
      ({ last_interrupt_time := 300, led_state := true }, some true) ∧
    button_work_handler { last_interrupt_time := 0, led_state := false } 300 1 =
      ({ last_interrupt_time := 300, led_state := false }, none) :=
  ⟨(accept_sample_spec { last_interrupt_time := 0, led_state := false } 300 0
      (by decide)).1 rfl,
   (accept_sample_spec { last_interrupt_time := 0, led_state := false } 300 1
      (by decide)).2 (by decide)⟩

/-- C9: because `last_interrupt_time` starts at 0, any notification whose
time `t` satisfies `t < 200` ms is rejected by the debounce filter even
though no edge was ever accepted: no toggle, no LED write, state unchanged,
whatever the sampled level. -/
theorem initial_window_rejects_first_press (t lvl : Nat)
    (h : t < msecs_to_jiffies 200) :
    button_work_handler initEngine t lvl = (initEngine, none) := by
  apply (debounce_filter_spec initEngine t lvl).1
  show (t + ULONG_MOD - 0) % ULONG_MOD < msecs_to_jiffies 200
  unfold ULONG_MOD msecs_to_jiffies at *
  omega

/-- Witness for C9: a first genuine press at t = 100 ms produces no toggle
and no LED write. -/
theorem initial_window_rejects_first_press_witness :
    button_work_handler initEngine 100 0 = (initEngine, none) :=
  initial_window_rejects_first_press 100 0 (by decide)

/-- C4: the window's lower bound is closed.  When `t - last_interrupt_time`
is exactly 200 ms the notification is accepted: the timestamp is updated to
`t` (which a rejection could not produce, since `usub t last = 200` forces
`t ≠ last`), and a pressed sample does toggle and write. -/
theorem window_boundary_accepts (s : EngineState) (t lvl : Nat)
    (h : usub t s.last_interrupt_time = msecs_to_jiffies 200) :
    (button_work_handler s t lvl).1.last_interrupt_time = t ∧
    (lvl = 0 → button_work_handler s t lvl =
      ({ last_interrupt_time := t, led_state := !s.led_state }, some (!s.led_state))) := by
  have hn : ¬ usub t s.last_interrupt_time < msecs_to_jiffies 200 := by omega
  exact ⟨(debounce_filter_spec s t lvl).2 hn, fun hl => (accept_sample_spec s t lvl hn).1 hl⟩

/-- Witness for C4: an edge exactly 200 ms after the last accepted one is
accepted and toggles. -/
theorem window_boundary_accepts_witness :
    button_work_handler { last_interrupt_time := 100, led_state := true } 300 0 =
      ({ last_interrupt_time := 300, led_state := false }, some false) :=
  (window_boundary_accepts { last_interrupt_time := 100, led_state := true } 300 0
      (by decide)).2 rfl

/-- A timestamp sequence is well spaced for a stored timestamp `last` when
each element is at least 200 ms after its predecessor (the first at least
200 ms after `last`) and all values fit in an `unsigned long`. -/
def wellSpaced : Nat → List Nat → Prop
  | _, [] => True
  | last, t :: ts => last + msecs_to_jiffies 200 ≤ t ∧ t < ULONG_MOD ∧ wellSpaced t ts

/-- The alternating write sequence produced by `n` consecutive toggles whose
first written value is `b`. -/
def alternating : Bool → Nat → List Bool
  | _, 0 => []
  | b, n + 1 => b :: alternating (!b) n

/-- The LED boolean after `n` toggles starting from `b`. -/
def finalLed : Bool → Nat → Bool
  | b, 0 => b
  | b, n + 1 => finalLed (!b) n

/-- The last element of a timestamp list, or `d` when the list is empty. -/
def lastTime (d : Nat) : List Nat → Nat
  | [] => d
  | t :: ts => lastTime t ts

theorem usub_of_le (a b : Nat) (hb : b ≤ a) (ha : a < ULONG_MOD) :
    usub a b = a - b := by
  unfold usub ULONG_MOD at *
  omega

theorem alternating_getLast (b : Bool) (n : Nat) :
    (alternating b (n + 1)).getLast? = some (finalLed b n) := by
  induction n generalizing b with
  | zero => rfl
  | succ n ih =>
    show (b :: (!b) :: alternating (!(!b)) n).getLast? = some (finalLed (!b) n)
    rw [List.getLast?_cons_cons]
    exact ih (!b)

theorem runHandler_wellSpaced (ts : List Nat) :
    ∀ s : EngineState, wellSpaced s.last_interrupt_time ts →
      runHandler s (ts.map fun t => (t, 0)) =
        ({ last_interrupt_time := lastTime s.last_interrupt_time ts,
           led_state := finalLed s.led_state ts.length },
         alternating (!s.led_state) ts.length) := by
  induction ts with
  | nil => intro s _; rfl
  | cons t ts ih =>
    intro s h
    obtain ⟨h1, h2, h3⟩ := h
    have hn : ¬ usub t s.last_interrupt_time < msecs_to_jiffies 200 := by
      rw [usub_of_le t s.last_interrupt_time (by omega) h2]
      unfold msecs_to_jiffies at *
      omega
    have hstep := (accept_sample_spec s t 0 hn).1 rfl
    show runHandler s ((t, 0) :: ts.map fun u => (u, 0)) = _
    rw [runHandler, hstep]
    rw [ih { last_interrupt_time := t, led_state := !s.led_state } h3]
    simp [alternating, finalLed, lastTime]

/-- C3 (amended): for every sequence of pressed-level notifications whose
first timestamp is at least 200 ms after the stored timestamp and whose
successive timestamps are spaced at least 200 ms apart, every notification
toggles `led_state` — the writes are exactly the alternating sequence of
toggles, one per notification — and after the run the last level written to
the LED line equals `led_state`.  (From the fresh state, whose timestamp is
0, the scenario edges at t = 0, 50, 250 ms do not satisfy this: only t = 250
toggles; see the counterexample.) -/
theorem spaced_pressed_toggles (ts : List Nat) (s : EngineState)
    (h : wellSpaced s.last_interrupt_time ts) :
    (runHandler s (ts.map fun t => (t, 0))).2 = alternating (!s.led_state) ts.length ∧
    (ts ≠ [] → (runHandler s (ts.map fun t => (t, 0))).2.getLast? =
      some (runHandler s (ts.map fun t => (t, 0))).1.led_state) := by
  rw [runHandler_wellSpaced ts s h]
  refine ⟨rfl, fun hne => ?_⟩
  obtain ⟨n, hn⟩ : ∃ n, ts.length = n + 1 :=
    ⟨ts.length - 1, by cases ts with | nil => exact absurd rfl hne | cons a l => simp⟩
  rw [hn]
  rw [alternating_getLast (!s.led_state) n]
  congr 1

/-- Witness for C3 (amended): pressed edges at t = 200 and t = 400 ms from
the fresh state both toggle, writing `true` then `false`. -/
theorem spaced_pressed_toggles_witness :
    (runHandler initEngine [(200, 0), (400, 0)]).2 = [true, false] ∧
    (runHandler initEngine [(200, 0), (400, 0)]).2.getLast? =
      some (runHandler initEngine [(200, 0), (400, 0)]).1.led_state := by
  have h := spaced_pressed_toggles [200, 400] initEngine
    (by exact ⟨by decide, by decide, by decide, by decide, trivial⟩)
  exact ⟨h.1, h.2 (by decide)⟩

/-- Counterexample to C3 as stated: from the fresh state, pressed edges at
t = 0, 50 and 250 ms produce exactly one toggle (one write, `true`, at
t = 250), not two: the edge at t = 0 satisfies `0 - 0 = 0 < 200` against
the zero-initial timestamp and is rejected by the debounce filter. -/
theorem scenario1_counterexample :
    runHandler initEngine [(0, 0), (50, 0), (250, 0)] =
      ({ last_interrupt_time := 250, led_state := true }, [true]) ∧
    (runHandler initEngine [(0, 0), (50, 0), (250, 0)]).2.length ≠ 2 := by
  decide

/-- Engine state together with the level currently driven on the LED line. -/
structure SysState where
  engine : EngineState
  line_level : Bool
  deriving DecidableEq, Repr

/-- Startup (gpioctrl.c lines 94-99): `gpio_direction_output(LED_GPIO, 0)`
drives the LED line to 0 while `led_state` is `false` and
`last_interrupt_time` is 0. -/
def sysInit : SysState := { engine := initEngine, line_level := false }

/-- One notification processed against the full system: the handler runs and
any `gpio_set_value(LED_GPIO, _)` it performs updates the driven level. -/
def sysStep (st : SysState) (t lvl : Nat) : SysState :=
  match button_work_handler st.engine t lvl with
  | (e, some b) => { engine := e, line_level := b }
  | (e, none) => { engine := e, line_level := st.line_level }

/-- Process a list of notifications `(time, sampled level)` in order. -/
def sysRun : SysState → List (Nat × Nat) → SysState
  | st, [] => st
  | st, (t, lvl) :: evs => sysRun (sysStep st t lvl) evs

/-- Shutdown (gpioctrl.c line 158): `gpio_set_value(LED_GPIO, 0)` forces the
LED line to 0 whatever `led_state` last was. -/
def sysExit (st : SysState) : SysState := { st with line_level := false }

theorem sysStep_mirror (st : SysState) (t lvl : Nat)
    (h : st.engine.led_state = st.line_level) :
    (sysStep st t lvl).engine.led_state = (sysStep st t lvl).line_level := by
  unfold sysStep
  by_cases hc : usub t st.engine.last_interrupt_time < msecs_to_jiffies 200
  · rw [(debounce_filter_spec st.engine t lvl).1 hc]
    exact h
  · by_cases hl : lvl = 0
    · rw [(accept_sample_spec st.engine t lvl hc).1 hl]
    · rw [(accept_sample_spec st.engine t lvl hc).2 hl]
      exact h

theorem sysRun_mirror (evs : List (Nat × Nat)) :
    ∀ st : SysState, st.engine.led_state = st.line_level →
      (sysRun st evs).engine.led_state = (sysRun st evs).line_level := by
  induction evs with
  | nil => intro st h; exact h
  | cons e evs ih =>
    intro st h
    exact ih (sysStep st e.1 e.2) (sysStep_mirror st e.1 e.2 h)

/-- C5: at startup `led_state` is `false` and the LED line is driven to 0;
after any sequence of notifications `led_state` equals the level last
written to the LED line (it changes only in the accept path, in the same
step that performs the write); and shutdown forces the line to 0
regardless of the final `led_state`. -/
theorem led_mirrors_line :
    sysInit.engine.led_state = sysInit.line_level ∧
    sysInit.line_level = false ∧
    (∀ evs : List (Nat × Nat),
      (sysRun sysInit evs).engine.led_state = (sysRun sysInit evs).line_level) ∧
    (∀ st : SysState, (sysExit st).line_level = false) := by
  exact ⟨rfl, rfl, fun evs => sysRun_mirror evs sysInit rfl, fun st => rfl⟩

/-- Modelled from the spec: the deferred-work runner is a single-slot work
item, not a queue ("at most one may be outstanding at a time ... a second
edge arriving while one is still pending is coalesced/dropped, not
queued").  `outstanding` counts submitted-but-unprocessed notifications;
`queue_work` on the single static work item adds a notification only when
none is outstanding. -/
structure RunnerState where
  outstanding : Nat
  deriving DecidableEq, Repr

/-- Modelled from the spec: submitting the single static work item
(`queue_work(button_wq, &button_work_struct.work)`) is a no-op when that
item is already pending. -/
def queue_work (st : RunnerState) : RunnerState :=
  if st.outstanding = 0 then { outstanding := 1 } else st

/-- gpioctrl.c lines 48-53, `button_irq_handler`: each edge interrupt only
submits the single work item to the runner. -/
def button_irq_handler (st : RunnerState) : RunnerState := queue_work st

/-- The worker consumes the pending notification and runs the handler. -/
def work_dispatch (_st : RunnerState) : RunnerState := { outstanding := 0 }

/-- An occurrence at the runner: an edge interrupt, or the worker running
the pending work item. -/
inductive RunnerEvent where
  | edge
  | dispatch
  deriving DecidableEq, Repr

def runnerStep (st : RunnerState) : RunnerEvent → RunnerState
  | RunnerEvent.edge => button_irq_handler st
  | RunnerEvent.dispatch => work_dispatch st

/-- Interleave edge interrupts and worker runs starting from `st`. -/
def runnerExec (st : RunnerState) (evs : List RunnerEvent) : RunnerState :=
  evs.foldl runnerStep st

theorem runnerStep_le_one (st : RunnerState) (e : RunnerEvent)
    (h : st.outstanding ≤ 1) : (runnerStep st e).outstanding ≤ 1 := by
  cases e with
  | edge =>
    show (queue_work st).outstanding ≤ 1
    unfold queue_work
    split
    · exact Nat.le_refl 1
    · exact h
  | dispatch => exact Nat.zero_le 1

/-- C10: starting with nothing outstanding, after any interleaving of edge
interrupts and worker runs at most one notification is outstanding; and an
edge arriving while one is already pending leaves the runner unchanged
(coalesced), causing no additional evaluation. -/
theorem single_slot_coalescing :
    (∀ evs : List RunnerEvent,
      (runnerExec { outstanding := 0 } evs).outstanding ≤ 1) ∧
    (∀ st : RunnerState, st.outstanding = 1 → button_irq_handler st = st) := by
  constructor
  · intro evs
    have key : ∀ (l : List RunnerEvent) (st : RunnerState), st.outstanding ≤ 1 →
        (runnerExec st l).outstanding ≤ 1 := by
      intro l
      induction l with
      | nil => intro st h; exact h
      | cons e l ih => intro st h; exact ih (runnerStep st e) (runnerStep_le_one st e h)
    exact key evs { outstanding := 0 } (by decide)
  · intro st h
    unfold button_irq_handler queue_work
    rw [h]
    simp

/-- Witness for C10: two back-to-back edges leave at most one notification
outstanding, and the second edge on a pending slot changes nothing. -/
theorem single_slot_coalescing_witness :
    (runnerExec { outstanding := 0 }
      [RunnerEvent.edge, RunnerEvent.edge]).outstanding ≤ 1 ∧
    button_irq_handler { outstanding := 1 } = { outstanding := 1 } :=
  ⟨single_slot_coalescing.1 [RunnerEvent.edge, RunnerEvent.edge],
   single_slot_coalescing.2 { outstanding := 1 } rfl⟩

/-- Results of the external calls made by `gpio_button_led_init`
(gpioctrl.c lines 56-144): validity checks, request/direction return codes
(negative means failure), workqueue creation, `gpio_to_irq` and
`request_irq` return codes. -/
structure InitEnv where
  button_valid : Bool
  button_request_res : Int
  button_dirin_res : Int
  led_valid : Bool
  led_request_res : Int
  led_dirout_res : Int
  wq_created : Bool
  gpio_to_irq_res : Int
  request_irq_res : Int
  deriving DecidableEq, Repr

/-- Resource events of the startup/teardown paths, in program order. -/
inductive Event where
  | acquireButton
  | freeButton
  | acquireLed
  | freeLed
  | createWQ
  | destroyWQ
  | armIrq
  deriving DecidableEq, Repr

/-- gpioctrl.c lines 56-144, `gpio_button_led_init`: returns the C result
code and the ordered list of resource events.  The `goto` unwind chain is
`fail_workqueue` (destroy workqueue) → `fail_led_direction` (free LED) →
`fail_button_direction` (free button).  `irq_number` is declared
`unsigned int` (line 12), so the negative `gpio_to_irq` result is stored
as its value modulo 2^32 and the `irq_number < 0` test at line 114 is a
comparison of an unsigned value against 0. -/
def gpio_button_led_init (env : InitEnv) : Int × List Event :=
  if env.button_valid = false then (-20, [])
  else if env.button_request_res < 0 then (env.button_request_res, [])
  else if env.button_dirin_res < 0 then
    (env.button_dirin_res, [Event.acquireButton, Event.freeButton])
  else if env.led_valid = false then
    (-20, [Event.acquireButton, Event.freeButton])
  else if env.led_request_res < 0 then
    (env.led_request_res, [Event.acquireButton, Event.freeButton])
  else if env.led_dirout_res < 0 then
    (env.led_dirout_res,
     [Event.acquireButton, Event.acquireLed, Event.freeLed, Event.freeButton])
  else if env.wq_created = false then
    (-12, [Event.acquireButton, Event.acquireLed, Event.freeLed, Event.freeButton])
  else if ((env.gpio_to_irq_res % 4294967296).toNat : Nat) < 0 then
    ((env.gpio_to_irq_res % 4294967296).toNat,
     [Event.acquireButton, Event.acquireLed, Event.createWQ,
      Event.destroyWQ, Event.freeLed, Event.freeButton])
  else if env.request_irq_res < 0 then
    (env.request_irq_res,
     [Event.acquireButton, Event.acquireLed, Event.createWQ,
      Event.destroyWQ, Event.freeLed, Event.freeButton])
  else
    (0, [Event.acquireButton, Event.acquireLed, Event.createWQ, Event.armIrq])

/-- Acquisition events of a trace, in order. -/
def acquiresOf (tr : List Event) : List Event :=
  tr.filter fun e =>
    match e with
    | Event.acquireButton | Event.acquireLed | Event.createWQ => true
    | _ => false

/-- Each release event mapped to the acquisition it undoes, in trace order. -/
def releasesOf (tr : List Event) : List Event :=
  tr.filterMap fun e =>
    match e with
    | Event.freeButton => some Event.acquireButton
    | Event.freeLed => some Event.acquireLed
    | Event.destroyWQ => some Event.createWQ
    | _ => none

/-- C6: whenever `gpio_button_led_init` returns a failure, the releases it
performed undo exactly the acquisitions it performed, in reverse order of
acquisition, and the interrupt is never armed — no partially-acquired
resource is left live. -/
theorem init_failure_rollback (env : InitEnv)
    (h : (gpio_button_led_init env).1 < 0) :
    releasesOf (gpio_button_led_init env).2 =
      (acquiresOf (gpio_button_led_init env).2).reverse ∧
    Event.armIrq ∉ (gpio_button_led_init env).2 := by
  revert h
  unfold gpio_button_led_init
  repeat' split
  all_goals intro h
  all_goals first
  | exact ⟨rfl, by simp [releasesOf, acquiresOf]⟩
  | exact absurd h (by decide)

/-- Witness for C6, the spec's invalid-output-line scenario: the button line
was acquired and its direction set, then the LED line is reported invalid;
startup fails with -ENODEV, the button line is released, and no interrupt
is armed. -/
theorem init_failure_rollback_witness :
    releasesOf (gpio_button_led_init
      { button_valid := true, button_request_res := 0, button_dirin_res := 0,
        led_valid := false, led_request_res := 0, led_dirout_res := 0,
        wq_created := true, gpio_to_irq_res := 200, request_irq_res := 0 }).2 =
      (acquiresOf (gpio_button_led_init
        { button_valid := true, button_request_res := 0, button_dirin_res := 0,
          led_valid := false, led_request_res := 0, led_dirout_res := 0,
          wq_created := true, gpio_to_irq_res := 200, request_irq_res := 0 }).2).reverse ∧
    Event.armIrq ∉ (gpio_button_led_init
      { button_valid := true, button_request_res := 0, button_dirin_res := 0,
        led_valid := false, led_request_res := 0, led_dirout_res := 0,
        wq_created := true, gpio_to_irq_res := 200, request_irq_res := 0 }).2 :=
  init_failure_rollback
    { button_valid := true, button_request_res := 0, button_dirin_res := 0,
      led_valid := false, led_request_res := 0, led_dirout_res := 0,
      wq_created := true, gpio_to_irq_res := 200, request_irq_res := 0 }
    (by decide)

/-- C8: the `unsigned int` slip.  With every step succeeding except the IRQ
lookup — `gpio_to_irq` returns -22 (-EINVAL) — the check `irq_number < 0`
compares an unsigned value (here 4294967274) against 0 and never fires, so
the negative lookup result is not propagated: if `request_irq` then
returns 0, startup reports success (0) and the interrupt is armed, against
the claimed RegistrationError. -/
theorem irq_lookup_failure_not_propagated :
    (gpio_button_led_init
      { button_valid := true, button_request_res := 0, button_dirin_res := 0,
        led_valid := true, led_request_res := 0, led_dirout_res := 0,
        wq_created := true, gpio_to_irq_res := -22, request_irq_res := 0 }).1 = 0 ∧
    Event.armIrq ∈ (gpio_button_led_init
      { button_valid := true, button_request_res := 0, button_dirin_res := 0,
        led_valid := true, led_request_res := 0, led_dirout_res := 0,
        wq_created := true, gpio_to_irq_res := -22, request_irq_res := 0 }).2 := by
  decide

/-- Steps of `gpio_button_led_exit` (gpioctrl.c lines 147-163), in program
order.  `destroy_workqueue` flushes the workqueue, waiting for an
in-flight work item to finish, before destroying it. -/
inductive ExitEvent where
  | free_irq
  | destroy_workqueue
  | write_led (level : Bool)
  | free_led
  | free_button
  deriving DecidableEq, Repr

/-- gpioctrl.c lines 147-163, `gpio_button_led_exit`: free the interrupt,
destroy (drain) the workqueue, force the LED line to 0, release the LED
then the button line. -/
def gpio_button_led_exit : List ExitEvent :=
  [ExitEvent.free_irq, ExitEvent.destroy_workqueue, ExitEvent.write_led false,
   ExitEvent.free_led, ExitEvent.free_button]

/-- C7: shutdown disarms the interrupt first, then waits out any in-flight
evaluation (workqueue destruction), then forces the LED line to 0 — never
writing any other level — and only then releases the LED and button lines;
in particular disarming strictly precedes both line releases. -/
theorem exit_ordering :
    gpio_button_led_exit.indexOf ExitEvent.free_irq <
      gpio_button_led_exit.indexOf ExitEvent.destroy_workqueue ∧
    gpio_button_led_exit.indexOf ExitEvent.destroy_workqueue <
      gpio_button_led_exit.indexOf (ExitEvent.write_led false) ∧
    gpio_button_led_exit.indexOf (ExitEvent.write_led false) <
      gpio_button_led_exit.indexOf ExitEvent.free_led ∧
    gpio_button_led_exit.indexOf ExitEvent.free_led <
      gpio_button_led_exit.indexOf ExitEvent.free_button ∧
    ExitEvent.write_led false ∈ gpio_button_led_exit ∧
    ExitEvent.write_led true ∉ gpio_button_led_exit ∧
    gpio_button_led_exit.indexOf ExitEvent.free_irq <
      gpio_button_led_exit.indexOf ExitEvent.free_button := by
  decide

end GpioCtrl
